import Mathlib

/-!
Shallow embedding of the ByteBistro order-management backend: the cart,
order-placement, order-mutation and order-access logic of `api/views.py`
together with the order-detail serialization of `api/serializers.py`.
Database tables are lists of records; each Django ORM statement that writes
a row becomes an update of the state, performed in the order the view
executes it (the views open no transaction, so every successful write
persists even when a later statement of the same request raises).
Decimal currency values in this code carry two fractional digits
(DecimalField(decimal_places=2)); they are modelled exactly as integer
counts of cents (9.50 is 950), under which the arithmetic the views
perform (integer quantity times price, and sums) is exact.
-/

namespace ByteBistro

/-- A Django auth user: primary key, the names of the groups the user is in,
and the staff / superuser flags consulted by the permission checks. -/
structure UserRec where
  id : Nat
  groups : List String
  is_staff : Bool
  is_superuser : Bool
deriving DecidableEq

/-- A MenuItem row: primary key, title, decimal price, featured flag and
category reference (fields listed by MenuItemSerializer). -/
structure MenuItem where
  id : Nat
  title : String
  price : Int
  featured : Bool
  category : Nat
deriving DecidableEq

/-- A Cart row as created by Customer_Cart.post: owning user, referenced menu
item, quantity, the unit price snapshotted at add time, and the line price. -/
structure CartLine where
  user : Nat
  menuitem : Nat
  quantity : Nat
  unit_price : Int
  price : Int
deriving DecidableEq

/-- An Order row as created by OrdersView.post: primary key, owning user,
boolean delivery status, decimal total, creation date and the optionally
assigned delivery-crew user. -/
structure Order where
  id : Nat
  user : Nat
  status : Bool
  total : Int
  date : Nat
  delivery_crew : Option Nat
deriving DecidableEq

/-- An OrderItem row as created by OrdersView.post: parent order, referenced
menu item and quantity (the view stores no price fields on it). -/
structure OrderItem where
  order : Nat
  menuitem : Nat
  quantity : Nat
deriving DecidableEq

/-- The persistent store: one list of rows per table. -/
structure DB where
  users : List UserRec
  menuitems : List MenuItem
  carts : List CartLine
  orders : List Order
  orderitems : List OrderItem
deriving DecidableEq

/-- MenuItem.objects.get / get_object_or_404 on the MenuItem table. -/
def findMenuItem (db : DB) (i : Nat) : Option MenuItem :=
  db.menuitems.find? (fun m => m.id == i)

/-- Order.objects.get / get_object_or_404 on the Order table. -/
def findOrder (db : DB) (i : Nat) : Option Order :=
  db.orders.find? (fun o => o.id == i)

/-- User.objects lookup by primary key. -/
def findUser (db : DB) (i : Nat) : Option UserRec :=
  db.users.find? (fun u => u.id == i)

/-- request.user.groups.filter(name=g).exists() for the given user. -/
def inGroup (db : DB) (uid : Nat) (g : String) : Bool :=
  match findUser db uid with
  | some u => u.groups.contains g
  | none => false

/-- request.user.is_superuser, as read by OrdersView.get_queryset. -/
def isSuperuser (db : DB) (uid : Nat) : Bool :=
  match findUser db uid with
  | some u => u.is_superuser
  | none => false

/-- Modelled from the spec: api/permissions.py is not under src. Section 4.1
says the Role Authority answers the set-membership question "is Manager"
from group membership, so IsManager grants exactly the users in the
Manager group. -/
def isManagerPerm (db : DB) (uid : Nat) : Bool :=
  inGroup db uid "Manager"

/-- Modelled from the spec: api/permissions.py is not under src. Section 4.1
says the Role Authority answers "is Delivery Crew" from group membership,
so IsDeliveryCrew grants exactly the users in the Delivery Crew group. -/
def isDeliveryCrewPerm (db : DB) (uid : Nat) : Bool :=
  inGroup db uid "Delivery Crew"

/-- rest_framework.permissions.IsAdminUser: grants exactly the staff users. -/
def isAdminUserPerm (db : DB) (uid : Nat) : Bool :=
  match findUser db uid with
  | some u => u.is_staff
  | none => false

/-- The HTTP method of a request, as branched on by get_permissions. -/
inductive Method
  | GET
  | POST
  | PUT
  | PATCH
  | DELETE
deriving DecidableEq

/-- Cart.objects.filter(user=uid): the requesting user's cart lines. -/
def userCart (db : DB) (uid : Nat) : List CartLine :=
  db.carts.filter (fun c => c.user == uid)

/-- Modelled from the spec: models.py is not under src. Section 3 states the
CartLine invariant "at most one line per (user, menu item) pair — adding the
same item again is a distinct create that must not silently duplicate", so
Cart.objects.create raises (returns none) when a line with the same
(user, menuitem) pair already exists, and otherwise inserts the row. -/
def cartCreate (db : DB) (line : CartLine) : Option DB :=
  if db.carts.any (fun c => c.user == line.user && c.menuitem == line.menuitem) then
    none
  else
    some { db with carts := line :: db.carts }

/-- Customer_Cart.post: look up the menu item (404 when absent), snapshot its
current price as unit price, compute price = quantity * unit price, and
create the cart line; an exception from create is caught and answered with
an error message instead of the 201. The Bool records whether the 201
success response was returned. -/
def addToCart (db : DB) (uid : Nat) (mid : Nat) (quantity : Nat) : DB × Bool :=
  match findMenuItem db mid with
  | none => (db, false)
  | some item =>
    match cartCreate db { user := uid, menuitem := mid, quantity := quantity,
                          unit_price := item.price,
                          price := (quantity : Int) * item.price } with
    | none => (db, false)
    | some db2 => (db2, true)

/-- Customer_Cart.delete with no menuitem in the body:
Cart.objects.filter(user=request.user).delete(), which removes every cart
line of the user and never raises. The Bool records success. -/
def clearCart (db : DB) (uid : Nat) : DB × Bool :=
  ({ db with carts := db.carts.filter (fun c => !(c.user == uid)) }, true)

/-- OrdersView.calculate_total: sum of the price fields of the cart lines. -/
def calculate_total (cart_items : List CartLine) : Int :=
  cart_items.foldl (fun total item => total + item.price) 0

/-- The OrderItem-creation loop of OrdersView.post: for each cart line,
get_object_or_404 the referenced menu item — aborting the whole request when
it is gone — and create one OrderItem row. Each create persists immediately
(the view opens no transaction), so on abort the rows written so far stay.
Returns the store after the loop and whether the loop completed. -/
def createOrderItems (oid : Nat) : DB → List CartLine → DB × Bool
  | db, [] => (db, true)
  | db, i :: rest =>
    match findMenuItem db i.menuitem with
    | none => (db, false)
    | some m =>
      createOrderItems oid
        { db with orderitems :=
            db.orderitems ++ [{ order := oid, menuitem := m.id, quantity := i.quantity }] }
        rest

/-- OrdersView.post: read the requesting user's cart, compute the total,
create the Order row (status false, date today), create one OrderItem per
cart line, and finally delete the cart lines. oid is the primary key the
store assigns to the new order. The Bool records whether the 201 response
was reached; on a mid-loop 404 the rows already written remain and the
cart is not cleared. -/
def placeOrder (db : DB) (uid : Nat) (oid : Nat) (today : Nat) : DB × Bool :=
  let cart_items := userCart db uid
  let total := calculate_total cart_items
  let db1 := { db with orders := db.orders ++
      [{ id := oid, user := uid, status := false, total := total,
         date := today, delivery_crew := none }] }
  match createOrderItems oid db1 cart_items with
  | (db2, true) => ({ db2 with carts := db2.carts.filter (fun c => !(c.user == uid)) }, true)
  | (db2, false) => (db2, false)

/-- OrdersView.get_queryset: Manager-group members and superusers see all
orders, Delivery-Crew members the orders assigned to them, everyone else
their own orders. -/
def ordersQueryset (db : DB) (uid : Nat) : List Order :=
  if inGroup db uid "Manager" || isSuperuser db uid then
    db.orders
  else if inGroup db uid "Delivery Crew" then
    db.orders.filter (fun o => o.delivery_crew == some uid)
  else
    db.orders.filter (fun o => o.user == uid)

/-- SingleOrderView.get_permissions evaluated for an authenticated requester:
none when the order does not exist (Order.objects.get raises); otherwise
whether the configured permission classes grant the request. The order's
owner is allowed GET outright; PUT and DELETE need Manager or staff; every
other method needs Delivery Crew, Manager or staff. -/
def singleOrderAllowed (db : DB) (uid : Nat) (m : Method) (pk : Nat) : Option Bool :=
  match findOrder db pk with
  | none => none
  | some order =>
    if uid == order.user && m == Method.GET then
      some true
    else if m == Method.PUT || m == Method.DELETE then
      some (isManagerPerm db uid || isAdminUserPerm db uid)
    else
      some (isDeliveryCrewPerm db uid || isManagerPerm db uid || isAdminUserPerm db uid)

/-- Map an update over the order with the given primary key. -/
def updateOrders (db : DB) (pk : Nat) (f : Order → Order) : DB :=
  { db with orders := db.orders.map (fun o => if o.id == pk then f o else o) }

/-- SingleOrderView.patch: Order.objects.get (raises when absent, modelled as
none), flip the boolean status, save. -/
def patchOrder (db : DB) (pk : Nat) : Option DB :=
  match findOrder db pk with
  | none => none
  | some _ => some (updateOrders db pk (fun o => { o with status := !o.status }))

/-- SingleOrderView.put: get_object_or_404 the order and the crew user, set
delivery_crew to the crew user, save. -/
def putOrder (db : DB) (pk : Nat) (crew_pk : Nat) : Option DB :=
  match findOrder db pk, findUser db crew_pk with
  | some _, some _ =>
    some (updateOrders db pk (fun o => { o with delivery_crew := some crew_pk }))
  | _, _ => none

/-- SingleOrderSerializer's unit_price field: declared with
source menuitem.price, i.e. the referenced MenuItem's current price. -/
def serializer_unit_price (db : DB) (oi : OrderItem) : Option Int :=
  (findMenuItem db oi.menuitem).map (fun m => m.price)

/-- SingleOrderSerializer.get_price: obj.quantity * obj.menuitem.price, read
from the referenced MenuItem at serialization time. -/
def get_price (db : DB) (oi : OrderItem) : Option Int :=
  (findMenuItem db oi.menuitem).map (fun m => (oi.quantity : Int) * m.price)

/-- The framework-provided update of SingleItemView
(RetrieveUpdateDestroyAPIView with MenuItemSerializer): writing a new price
to a menu item. -/
def updateMenuItemPrice (db : DB) (mid : Nat) (p : Int) : DB :=
  { db with menuitems := db.menuitems.map (fun m => if m.id == mid then { m with price := p } else m) }

/-- The cart-uniqueness invariant of the store, as a boolean check: no two
cart lines share a (user, menu item) pair. -/
def cartsUniqueB : List CartLine → Bool
  | [] => true
  | c :: rest =>
    !(rest.any (fun d => d.user == c.user && d.menuitem == c.menuitem)) && cartsUniqueB rest

/-- At most one cart line per (user, menu item) pair. -/
abbrev cartsUnique (db : DB) : Prop :=
  cartsUniqueB db.carts = true

/-- A plain customer, used in the concrete scenarios. -/
def u1 : UserRec := { id := 1, groups := [], is_staff := false, is_superuser := false }

/-- A second plain customer, not the owner of any order below. -/
def cust5 : UserRec := { id := 5, groups := [], is_staff := false, is_superuser := false }

/-- A member of the Manager group. -/
def mgr2 : UserRec := { id := 2, groups := ["Manager"], is_staff := false, is_superuser := false }

/-- A member of the Delivery Crew group, assigned to no order below. -/
def crew43 : UserRec := { id := 43, groups := ["Delivery Crew"], is_staff := false, is_superuser := false }

/-- A menu item priced 9.50 (950 cents). -/
def itemA : MenuItem := { id := 1, title := "A", price := 950, featured := false, category := 1 }

/-- A menu item priced 3.00 (300 cents). -/
def itemB : MenuItem := { id := 2, title := "B", price := 300, featured := false, category := 1 }

/-- The spec's placement scenario: user 1's cart holds item A (unit 9.50,
quantity 2) and item B (unit 3.00, quantity 1). -/
def exDB4 : DB :=
  { users := [u1], menuitems := [itemA, itemB],
    carts := [{ user := 1, menuitem := 1, quantity := 2, unit_price := 950, price := 1900 },
              { user := 1, menuitem := 2, quantity := 1, unit_price := 300, price := 300 }],
    orders := [], orderitems := [] }

/-- A store in which user 1's second cart line references menu item 99,
which no longer exists (deleted after the add-to-cart), so OrderItem
creation aborts partway through the placement loop. -/
def exDB1 : DB :=
  { users := [u1], menuitems := [itemA],
    carts := [{ user := 1, menuitem := 1, quantity := 2, unit_price := 950, price := 1900 },
              { user := 1, menuitem := 99, quantity := 1, unit_price := 300, price := 300 }],
    orders := [], orderitems := [] }

/-- A store in which user 1's cart holds only item A with quantity 2. -/
def exDB2 : DB :=
  { users := [u1], menuitems := [itemA],
    carts := [{ user := 1, menuitem := 1, quantity := 2, unit_price := 950, price := 1900 }],
    orders := [], orderitems := [] }

/-- exDB2 after user 1 places the order (order 100): one OrderItem exists
and the cart is empty. -/
def exDB2placed : DB := (placeOrder exDB2 1 100 0).1

/-- exDB2placed after the menu item's price is changed from 950 to 1000. -/
def exDB2repriced : DB := updateMenuItemPrice exDB2placed 1 1000

/-- The OrderItem row written by the placement in exDB2placed. -/
def oi2 : OrderItem := { order := 100, menuitem := 1, quantity := 2 }

/-- Order 7: owned by user 1, assigned to delivery-crew user 42. -/
def ord7 : Order :=
  { id := 7, user := 1, status := false, total := 2200, date := 0, delivery_crew := some 42 }

/-- Order 8: owned by user 1, unassigned. -/
def ord8 : Order :=
  { id := 8, user := 1, status := false, total := 300, date := 0, delivery_crew := none }

/-- A store holding order 7 together with its owner and crew user 43, who is
in the Delivery Crew group but is not assigned to order 7. -/
def exDB3 : DB :=
  { users := [u1, crew43], menuitems := [], carts := [],
    orders := [ord7], orderitems := [] }

/-- exDB3 with the extra plain customer 5, who does not own order 7. -/
def exDB3b : DB := { exDB3 with users := cust5 :: exDB3.users }

/-- A store where user 1's cart is empty. -/
def exDB6 : DB :=
  { users := [u1], menuitems := [itemA], carts := [], orders := [], orderitems := [] }

/-- Order 7 in the role-scoping scenario: owned by user 1, assigned to 43. -/
def ord7b : Order :=
  { id := 7, user := 1, status := false, total := 2200, date := 0, delivery_crew := some 43 }

/-- Store for the role-scoping scenario of ListOrders. -/
def exDB7 : DB :=
  { users := [u1, mgr2, crew43], menuitems := [], carts := [],
    orders := [ord7b, ord8], orderitems := [] }

/-- A store where user 1 already has a cart line for menu item 1. -/
def exDB8 : DB :=
  { users := [u1], menuitems := [itemA],
    carts := [{ user := 1, menuitem := 1, quantity := 2, unit_price := 950, price := 1900 }],
    orders := [], orderitems := [] }

/-- Keeping only the rows refused by a predicate and then filtering with the
predicate itself leaves nothing. -/
theorem filter_not_filter {α : Type} (p : α → Bool) :
    ∀ l : List α, (l.filter (fun a => !(p a))).filter p = []
  | [] => rfl
  | a :: l => by
    cases h : p a
    · simp [List.filter_cons, h, filter_not_filter p l]
    · simp [List.filter_cons, h, filter_not_filter p l]

/-- calculate_total with a running accumulator. -/
theorem calculate_total_aux :
    ∀ (l : List CartLine) (a : Int),
      l.foldl (fun total item => total + item.price) a = a + (l.map (fun c => c.price)).sum
  | [], a => by simp
  | c :: l, a => by
    simp [List.foldl_cons, calculate_total_aux l (a + c.price), add_assoc]

/-- OrdersView.calculate_total equals the sum of the cart lines' prices. -/
theorem calculate_total_eq_sum (l : List CartLine) :
    calculate_total l = (l.map (fun c => c.price)).sum := by
  simpa [calculate_total] using calculate_total_aux l 0

/-- find? by primary key commutes with an id-preserving update of the
matching rows. -/
theorem find?_map_update (pk : Nat) (f : Order → Order) (hid : ∀ o, (f o).id = o.id) :
    ∀ l : List Order,
      (l.map (fun o => if o.id == pk then f o else o)).find? (fun o => o.id == pk) =
        (l.find? (fun o => o.id == pk)).map f
  | [] => rfl
  | o :: l => by
    by_cases h : o.id = pk
    · have hb : (o.id == pk) = true := beq_iff_eq.mpr h
      have hb2 : ((f o).id == pk) = true := beq_iff_eq.mpr (by rw [hid o]; exact h)
      rw [List.map_cons, if_pos hb,
        List.find?_cons_of_pos (p := fun x : Order => x.id == pk) _ hb2,
        List.find?_cons_of_pos (p := fun x : Order => x.id == pk) _ hb]
      rfl
    · have hb : (o.id == pk) = false := beq_eq_false_iff_ne.mpr h
      rw [List.map_cons, if_neg (by simp [hb]),
        List.find?_cons_of_neg (p := fun x : Order => x.id == pk) _ (by simp [hb]),
        List.find?_cons_of_neg (p := fun x : Order => x.id == pk) _ (by simp [hb])]
      exact find?_map_update pk f hid l

/-- Updating the order with a given primary key commutes with looking that
order up, as long as the update keeps the id. -/
theorem findOrder_updateOrders (db : DB) (pk : Nat) (f : Order → Order)
    (hid : ∀ o, (f o).id = o.id) :
    findOrder (updateOrders db pk f) pk = (findOrder db pk).map f :=
  find?_map_update pk f hid db.orders

/-- When every cart line references an existing menu item, the
OrderItem-creation loop of OrdersView.post completes and appends exactly one
OrderItem per cart line. -/
theorem createOrderItems_complete (oid : Nat) :
    ∀ (lines : List CartLine) (db : DB),
      (∀ c ∈ lines, (findMenuItem db c.menuitem).isSome = true) →
      createOrderItems oid db lines =
        ({ db with orderitems := db.orderitems ++
            lines.map (fun c => { order := oid, menuitem := c.menuitem, quantity := c.quantity }) },
         true)
  | [], db, _ => by simp [createOrderItems]
  | i :: rest, db, h => by
    have hi : (findMenuItem db i.menuitem).isSome = true := h i (List.mem_cons_self i rest)
    obtain ⟨m, hm⟩ := Option.isSome_iff_exists.mp hi
    have hmid : m.id = i.menuitem := by
      have hm2 : db.menuitems.find? (fun x => x.id == i.menuitem) = some m := hm
      have hbeq : (m.id == i.menuitem) = true :=
        List.find?_some (p := fun x : MenuItem => x.id == i.menuitem) (a := m) hm2
      exact beq_iff_eq.mp hbeq
    have h2 : ∀ c ∈ rest,
        (findMenuItem
          { db with orderitems := db.orderitems ++
              [{ order := oid, menuitem := m.id, quantity := i.quantity }] } c.menuitem).isSome
          = true :=
      fun c hc => h c (List.mem_cons_of_mem i hc)
    simp only [createOrderItems, hm]
    rw [createOrderItems_complete oid rest _ h2]
    simp [hmid, List.append_assoc]

/-- Customer_Cart.post answers 404 when the menu item does not exist. -/
theorem addToCart_none_eq (db : DB) (uid : Nat) (mid : Nat) (quantity : Nat)
    (hfm : findMenuItem db mid = none) :
    addToCart db uid mid quantity = (db, false) := by
  simp [addToCart, hfm]

/-- Customer_Cart.post answers the caught-exception message (no 201) when a
line for the (user, menu item) pair already exists. -/
theorem addToCart_dup_eq (db : DB) (uid : Nat) (mid : Nat) (quantity : Nat) (item : MenuItem)
    (hfm : findMenuItem db mid = some item)
    (hany : db.carts.any (fun c => c.user == uid && c.menuitem == mid) = true) :
    addToCart db uid mid quantity = (db, false) := by
  simp [addToCart, hfm, cartCreate, hany]

/-- Customer_Cart.post inserts the snapshotted line and answers 201 when the
menu item exists and no line for the pair does. -/
theorem addToCart_fresh_eq (db : DB) (uid : Nat) (mid : Nat) (quantity : Nat) (item : MenuItem)
    (hfm : findMenuItem db mid = some item)
    (hany : db.carts.any (fun c => c.user == uid && c.menuitem == mid) = false) :
    addToCart db uid mid quantity =
      ({ db with carts :=
          { user := uid, menuitem := mid, quantity := quantity,
            unit_price := item.price, price := (quantity : Int) * item.price } :: db.carts },
       true) := by
  simp [addToCart, hfm, cartCreate, hany]

/-- Claim C1: the claim requires PlaceOrder to be atomic — if OrderItem
creation fails partway, no Order and no OrderItems may persist. OrdersView.post
opens no transaction: on exDB1 the second cart line's menu item is gone, the
request aborts (no 201 reached), yet the Order row (total 22.00) and the
first OrderItem remain persisted, with the cart untouched. -/
theorem placeOrder_not_atomic :
    (placeOrder exDB1 1 100 0).2 = false ∧
    (placeOrder exDB1 1 100 0).1.orders =
      [{ id := 100, user := 1, status := false, total := 2200, date := 0, delivery_crew := none }] ∧
    (placeOrder exDB1 1 100 0).1.orderitems = [{ order := 100, menuitem := 1, quantity := 2 }] ∧
    (placeOrder exDB1 1 100 0).1.carts = exDB1.carts := by decide

/-- Claim C2: the claim says GetOrderDetail reports prices snapshotted at
order-placement time. SingleOrderSerializer instead reads menuitem.price
live: the order in exDB2placed was placed while item 1 cost 9.50 (950), yet
after its price changes to 10.00 (1000) the serializer reports unit price
1000 and line price 2000, not the 950 and 1900 a snapshot would give. -/
theorem order_detail_price_is_live :
    findMenuItem exDB2 1 = some itemA ∧ itemA.price = 950 ∧
    (placeOrder exDB2 1 100 0).1.orderitems = [oi2] ∧
    serializer_unit_price exDB2repriced oi2 = some 1000 ∧
    get_price exDB2repriced oi2 = some 2000 ∧
    serializer_unit_price exDB2repriced oi2 ≠ some 950 ∧
    get_price exDB2repriced oi2 ≠ some 1900 := by decide

/-- Claim C3 counterexample: order 7 is assigned to delivery-crew user 42,
but user 43 — in the Delivery Crew group and not assigned to order 7 — is
granted GET on the order detail rather than receiving Forbidden. -/
theorem singleOrder_unassigned_crew_allowed :
    ord7.delivery_crew = some 42 ∧ (42 : Nat) ≠ 43 ∧
    isDeliveryCrewPerm exDB3 43 = true ∧
    singleOrderAllowed exDB3 43 Method.GET 7 = some true := by decide

/-- Claim C3 (amended): for an existing order, a requester who is neither the
owner nor in the Manager or Delivery Crew groups nor staff is denied
GetOrderDetail; a requester in the Delivery Crew group is allowed
GetOrderDetail on every existing order, whether or not assigned to it. -/
theorem singleOrder_access (db : DB) (uid : Nat) (pk : Nat) (o : Order)
    (ho : findOrder db pk = some o) :
    (uid ≠ o.user → inGroup db uid "Manager" = false →
      inGroup db uid "Delivery Crew" = false → isAdminUserPerm db uid = false →
      singleOrderAllowed db uid Method.GET pk = some false) ∧
    (inGroup db uid "Delivery Crew" = true →
      singleOrderAllowed db uid Method.GET pk = some true) := by
  constructor
  · intro hne hm hc ha
    have hb : (uid == o.user) = false := beq_eq_false_iff_ne.mpr hne
    simp [singleOrderAllowed, ho, hb, isDeliveryCrewPerm, isManagerPerm, hm, hc, ha]
  · intro hc
    by_cases h : uid = o.user
    · simp [singleOrderAllowed, ho, h]
    · have hb : (uid == o.user) = false := beq_eq_false_iff_ne.mpr h
      simp [singleOrderAllowed, ho, hb, isDeliveryCrewPerm, hc]

/-- Claim C3 witness: in exDB3b, customer 5 (not the owner of order 7) is
denied GET on the order detail, while crew member 43 (unassigned) is
allowed. -/
theorem singleOrder_access_witness :
    singleOrderAllowed exDB3b 5 Method.GET 7 = some false ∧
    singleOrderAllowed exDB3b 43 Method.GET 7 = some true := by
  have h5 := singleOrder_access exDB3b 5 7 ord7 (by decide)
  have h43 := singleOrder_access exDB3b 43 7 ord7 (by decide)
  exact ⟨h5.1 (by decide) (by decide) (by decide) (by decide), h43.2 (by decide)⟩

/-- Claim C4: for a non-empty cart whose lines reference existing menu items
and carry price = quantity * unit_price (as AddLine writes them), PlaceOrder
succeeds, writes an Order whose total is calculate_total of the cart — the
sum of the line totals, each quantity times the snapshotted unit price —
writes one OrderItem per cart line, and empties the cart. -/
theorem placeOrder_total (db : DB) (uid : Nat) (oid : Nat) (today : Nat)
    (_hne : userCart db uid ≠ [])
    (hall : ∀ c ∈ userCart db uid, (findMenuItem db c.menuitem).isSome = true)
    (hsnap : ∀ c ∈ userCart db uid, c.price = (c.quantity : Int) * c.unit_price) :
    (placeOrder db uid oid today).2 = true ∧
    (placeOrder db uid oid today).1.orders = db.orders ++
      [{ id := oid, user := uid, status := false, total := calculate_total (userCart db uid),
         date := today, delivery_crew := none }] ∧
    calculate_total (userCart db uid) =
      ((userCart db uid).map (fun c => (c.quantity : Int) * c.unit_price)).sum ∧
    (placeOrder db uid oid today).1.orderitems = db.orderitems ++
      (userCart db uid).map (fun c => { order := oid, menuitem := c.menuitem, quantity := c.quantity }) ∧
    userCart (placeOrder db uid oid today).1 uid = [] := by
  have hsum : calculate_total (userCart db uid) =
      ((userCart db uid).map (fun c => (c.quantity : Int) * c.unit_price)).sum := by
    rw [calculate_total_eq_sum]
    congr 1
    exact List.map_congr_left hsnap
  have hrun := createOrderItems_complete oid (userCart db uid)
    { db with orders := db.orders ++
        [{ id := oid, user := uid, status := false, total := calculate_total (userCart db uid),
           date := today, delivery_crew := none }] } hall
  simp only [userCart] at hrun
  have hplace : placeOrder db uid oid today =
      ({ db with
          orders := db.orders ++
            [{ id := oid, user := uid, status := false, total := calculate_total (userCart db uid),
               date := today, delivery_crew := none }],
          orderitems := db.orderitems ++ (userCart db uid).map
            (fun c => { order := oid, menuitem := c.menuitem, quantity := c.quantity }),
          carts := db.carts.filter (fun c => !(c.user == uid)) }, true) := by
    simp only [placeOrder, userCart]
    rw [hrun]
  rw [hplace]
  refine ⟨rfl, rfl, hsum, rfl, ?_⟩
  show (db.carts.filter (fun c => !(c.user == uid))).filter (fun c => c.user == uid) = []
  exact filter_not_filter (fun c => c.user == uid) db.carts

/-- Claim C4 witness: the spec scenario — cart of (unit 9.50, qty 2) and
(unit 3.00, qty 1) yields an order with total 22.00, two OrderItems, and an
empty cart. -/
theorem placeOrder_total_witness :
    (placeOrder exDB4 1 100 0).2 = true ∧
    (placeOrder exDB4 1 100 0).1.orders =
      [{ id := 100, user := 1, status := false, total := 2200, date := 0, delivery_crew := none }] ∧
    (placeOrder exDB4 1 100 0).1.orderitems =
      [{ order := 100, menuitem := 1, quantity := 2 }, { order := 100, menuitem := 2, quantity := 1 }] ∧
    userCart (placeOrder exDB4 1 100 0).1 1 = [] := by
  have h := placeOrder_total exDB4 1 100 0 (by decide) (by decide) (by decide)
  refine ⟨h.1, ?_, ?_, h.2.2.2.2⟩
  · rw [h.2.1]; decide
  · rw [h.2.2.2.1]; decide

/-- Claim C5: ToggleDeliveryStatus always flips the boolean status — after
one patch the order's status is negated, and after a second patch the order
record is back to its original value. -/
theorem toggle_twice (db : DB) (pk : Nat) (o : Order) (ho : findOrder db pk = some o) :
    ∃ db1 db2, patchOrder db pk = some db1 ∧ patchOrder db1 pk = some db2 ∧
      findOrder db1 pk = some { o with status := !o.status } ∧
      findOrder db2 pk = some o := by
  have hfind1 : findOrder (updateOrders db pk (fun x => { x with status := !x.status })) pk
      = some { o with status := !o.status } := by
    rw [findOrder_updateOrders db pk (fun x => { x with status := !x.status }) (fun _ => rfl), ho]
    rfl
  have hfind2 : findOrder
      (updateOrders (updateOrders db pk (fun x => { x with status := !x.status })) pk
        (fun x => { x with status := !x.status })) pk = some o := by
    rw [findOrder_updateOrders (updateOrders db pk (fun x => { x with status := !x.status })) pk
      (fun x => { x with status := !x.status }) (fun _ => rfl), hfind1]
    simp [Bool.not_not]
  refine ⟨_, _, ?_, ?_, hfind1, hfind2⟩
  · unfold patchOrder; rw [ho]
  · unfold patchOrder; rw [hfind1]

/-- Claim C5 witness: toggling order 7 twice restores its original record. -/
theorem toggle_twice_witness :
    ∃ db1 db2, patchOrder exDB3 7 = some db1 ∧ patchOrder db1 7 = some db2 ∧
      findOrder db1 7 = some { ord7 with status := !ord7.status } ∧
      findOrder db2 7 = some ord7 :=
  toggle_twice exDB3 7 ord7 (by decide)

/-- Claim C6 counterexample: user 1's cart in exDB6 is empty, yet PlaceOrder
returns the 201 success response and creates an Order with total 0 instead
of failing with ValidationError and creating nothing. -/
theorem placeOrder_empty_cart_succeeds :
    userCart exDB6 1 = [] ∧
    (placeOrder exDB6 1 100 0).2 = true ∧
    (placeOrder exDB6 1 100 0).1.orders =
      [{ id := 100, user := 1, status := false, total := 0, date := 0, delivery_crew := none }] := by
  decide

/-- Claim C6 (amended): for every customer whose cart is empty, PlaceOrder
does not fail: it succeeds with the 201 response, creating an Order with
total 0 and writing no OrderItems. -/
theorem placeOrder_empty_cart (db : DB) (uid : Nat) (oid : Nat) (today : Nat)
    (h : userCart db uid = []) :
    (placeOrder db uid oid today).2 = true ∧
    (placeOrder db uid oid today).1.orders = db.orders ++
      [{ id := oid, user := uid, status := false, total := 0, date := today, delivery_crew := none }] ∧
    (placeOrder db uid oid today).1.orderitems = db.orderitems := by
  refine ⟨?_, ?_, ?_⟩ <;> simp [placeOrder, h, createOrderItems, calculate_total]

/-- Claim C6 witness: the amended statement at the concrete empty-cart
store. -/
theorem placeOrder_empty_cart_witness :
    (placeOrder exDB6 1 101 5).2 = true ∧
    (placeOrder exDB6 1 101 5).1.orders = exDB6.orders ++
      [{ id := 101, user := 1, status := false, total := 0, date := 5, delivery_crew := none }] ∧
    (placeOrder exDB6 1 101 5).1.orderitems = exDB6.orderitems :=
  placeOrder_empty_cart exDB6 1 101 5 (by decide)

/-- Claim C7: ListOrders returns every order when the requester is in the
Manager group or is a superuser; for a Delivery-Crew member (neither manager
nor superuser) exactly the orders whose delivery_crew is the requester; and
otherwise exactly the orders the requester owns. -/
theorem listOrders_scoped (db : DB) (uid : Nat) :
    ((inGroup db uid "Manager" = true ∨ isSuperuser db uid = true) →
      ordersQueryset db uid = db.orders) ∧
    (inGroup db uid "Manager" = false → isSuperuser db uid = false →
      inGroup db uid "Delivery Crew" = true →
      ∀ o : Order, o ∈ ordersQueryset db uid ↔ o ∈ db.orders ∧ o.delivery_crew = some uid) ∧
    (inGroup db uid "Manager" = false → isSuperuser db uid = false →
      inGroup db uid "Delivery Crew" = false →
      ∀ o : Order, o ∈ ordersQueryset db uid ↔ o ∈ db.orders ∧ o.user = uid) := by
  refine ⟨?_, ?_, ?_⟩
  · intro h
    rcases h with h | h <;> simp [ordersQueryset, h]
  · intro hm hs hc o
    simp [ordersQueryset, hm, hs, hc, List.mem_filter]
  · intro hm hs hc o
    simp [ordersQueryset, hm, hs, hc, List.mem_filter]

/-- Claim C7 witness: in exDB7, manager 2 sees all orders; crew member 43
sees exactly the orders assigned to 43; customer 1 sees exactly the orders
owned by 1. -/
theorem listOrders_scoped_witness :
    ordersQueryset exDB7 2 = exDB7.orders ∧
    (ord7b ∈ ordersQueryset exDB7 43 ↔ ord7b ∈ exDB7.orders ∧ ord7b.delivery_crew = some 43) ∧
    (ord8 ∈ ordersQueryset exDB7 1 ↔ ord8 ∈ exDB7.orders ∧ ord8.user = 1) := by
  refine ⟨(listOrders_scoped exDB7 2).1 (Or.inl (by decide)), ?_, ?_⟩
  · exact (listOrders_scoped exDB7 43).2.1 (by decide) (by decide) (by decide) ord7b
  · exact (listOrders_scoped exDB7 1).2.2 (by decide) (by decide) (by decide) ord8

/-- Claim C8: AddLine preserves the at-most-one-line-per-(user, menu item)
invariant, and when a line for the pair already exists the store is left
unchanged — the create raises, the exception is caught, and no second line
appears. -/
theorem addToCart_no_duplicate (db : DB) (uid : Nat) (mid : Nat) (quantity : Nat)
    (h : cartsUnique db) :
    cartsUnique (addToCart db uid mid quantity).1 ∧
    ((∃ c ∈ db.carts, c.user = uid ∧ c.menuitem = mid) →
      (addToCart db uid mid quantity).1 = db) := by
  have h' : cartsUniqueB db.carts = true := h
  cases hfm : findMenuItem db mid with
  | none =>
    rw [addToCart_none_eq db uid mid quantity hfm]
    exact ⟨h, fun _ => rfl⟩
  | some item =>
    by_cases hany : db.carts.any (fun c => c.user == uid && c.menuitem == mid) = true
    · rw [addToCart_dup_eq db uid mid quantity item hfm hany]
      exact ⟨h, fun _ => rfl⟩
    · have hany' : db.carts.any (fun c => c.user == uid && c.menuitem == mid) = false :=
        Bool.eq_false_iff.mpr hany
      rw [addToCart_fresh_eq db uid mid quantity item hfm hany']
      constructor
      · show cartsUniqueB
            ({ user := uid, menuitem := mid, quantity := quantity,
               unit_price := item.price, price := (quantity : Int) * item.price } :: db.carts) = true
        simp [cartsUniqueB, hany', h']
      · intro hdup
        rcases hdup with ⟨c, hc, h1, h2⟩
        have hc2 : (c.user == uid && c.menuitem == mid) = true := by
          simp [h1, h2]
        exact absurd (List.any_eq_true.mpr ⟨c, hc, hc2⟩) hany

/-- Claim C8 witness: user 1 already has a line for menu item 1; adding item
1 again leaves the store unchanged and the invariant intact. -/
theorem addToCart_no_duplicate_witness :
    cartsUnique (addToCart exDB8 1 1 3).1 ∧ (addToCart exDB8 1 1 3).1 = exDB8 := by
  have h := addToCart_no_duplicate exDB8 1 1 3 (by decide)
  exact ⟨h.1, h.2 (by decide)⟩

/-- Claim C9: ClearCart reports success and leaves no cart line of the user,
and a second ClearCart in a row also reports success with the cart empty
after each call — including when the cart was empty to begin with. -/
theorem clearCart_idem (db : DB) (uid : Nat) :
    (clearCart db uid).2 = true ∧
    (clearCart (clearCart db uid).1 uid).2 = true ∧
    userCart (clearCart db uid).1 uid = [] ∧
    userCart (clearCart (clearCart db uid).1 uid).1 uid = [] := by
  refine ⟨rfl, rfl, ?_, ?_⟩
  · exact filter_not_filter (fun c => c.user == uid) db.carts
  · exact filter_not_filter (fun c => c.user == uid)
      (db.carts.filter (fun c => !(c.user == uid)))

/-- Claim C10: on an existing order and crew user, patch changes only the
status field of the order record and put changes only the delivery_crew
field — owner, total and date are kept — and both leave the OrderItem, Cart,
MenuItem and User tables untouched. -/
theorem order_mutations_frame (db : DB) (pk : Nat) (crew : Nat) (o : Order) (u : UserRec)
    (ho : findOrder db pk = some o) (hu : findUser db crew = some u) :
    (∃ db1, patchOrder db pk = some db1 ∧
      findOrder db1 pk = some { o with status := !o.status } ∧
      db1.orderitems = db.orderitems ∧ db1.carts = db.carts ∧
      db1.menuitems = db.menuitems ∧ db1.users = db.users) ∧
    (∃ db2, putOrder db pk crew = some db2 ∧
      findOrder db2 pk = some { o with delivery_crew := some crew } ∧
      db2.orderitems = db.orderitems ∧ db2.carts = db.carts ∧
      db2.menuitems = db.menuitems ∧ db2.users = db.users) := by
  constructor
  · refine ⟨updateOrders db pk (fun x => { x with status := !x.status }), ?_, ?_, rfl, rfl, rfl, rfl⟩
    · unfold patchOrder; rw [ho]
    · rw [findOrder_updateOrders db pk (fun x => { x with status := !x.status }) (fun _ => rfl), ho]
      rfl
  · refine ⟨updateOrders db pk (fun x => { x with delivery_crew := some crew }), ?_, ?_, rfl, rfl, rfl, rfl⟩
    · unfold putOrder; rw [ho, hu]
    · rw [findOrder_updateOrders db pk (fun x => { x with delivery_crew := some crew })
        (fun _ => rfl), ho]
      rfl

/-- Claim C10 witness: on order 7 with crew user 43, patch flips only the
status and put assigns only the delivery crew, everything else unchanged. -/
theorem order_mutations_frame_witness :
    (∃ db1, patchOrder exDB3 7 = some db1 ∧
      findOrder db1 7 = some { ord7 with status := !ord7.status } ∧
      db1.orderitems = exDB3.orderitems ∧ db1.carts = exDB3.carts ∧
      db1.menuitems = exDB3.menuitems ∧ db1.users = exDB3.users) ∧
    (∃ db2, putOrder exDB3 7 43 = some db2 ∧
      findOrder db2 7 = some { ord7 with delivery_crew := some 43 } ∧
      db2.orderitems = exDB3.orderitems ∧ db2.carts = exDB3.carts ∧
      db2.menuitems = exDB3.menuitems ∧ db2.users = exDB3.users) :=
  order_mutations_frame exDB3 7 43 ord7 crew43 (by decide) (by decide)

end ByteBistro
